import Mathlib

/-!
Verification of the query-handling core of the Wox launcher
(`Wox/plugin/query.go` and `Wox/ui/ui_impl.go`), shallowly embedded in Lean.
Go strings are modelled as `List Char`; Go maps of request parameters as
association lists; the asynchronous plugin layer consumed by the dispatch
loop is modelled as a timed trace of events.
-/

namespace Wox

/-- Go `strings.Split(s, " ")` for a single-space separator, on the
`List Char` model of strings.  As in Go, the result is never empty:
splitting the empty string yields `[[]]`. -/
def splitOnSpace : List Char → List (List Char)
  | [] => [[]]
  | c :: rest =>
    let r := splitOnSpace rest
    if c = ' ' then [] :: r
    else (c :: r.headD []) :: r.tail

/-- Go `strings.Join(ts, " ")` on the `List Char` model of strings. -/
def joinSpace : List (List Char) → List Char
  | [] => []
  | [t] => t
  | t :: ts => t ++ ' ' :: joinSpace ts

/-- `QueryType` from `query.go`: a string alias (Go `type QueryType = string`). -/
abbrev QueryType := String

/-- `QueryTypeInput` constant from `query.go`. -/
def QueryTypeInput : QueryType := "input"

/-- `QueryTypeSelection` constant from `query.go`. -/
def QueryTypeSelection : QueryType := "selection"

/-- The `Query` struct from `query.go`.  The `Selection` payload (used only
for `QueryTypeSelection` queries and opaque to the parser) is not modelled;
none of the parser's code paths reads or writes it. -/
structure Query where
  «Type» : QueryType
  RawQuery : List Char
  TriggerKeyword : List Char
  Command : List Char
  Search : List Char
deriving DecidableEq

/-- One entry of `Instance.GetQueryCommands()` (`MetadataCommand`).  The
source type lives outside the sampled files; modelled from the spec (§6):
only its command identifier is consumed by the parser. -/
structure MetadataCommand where
  Command : List Char
deriving DecidableEq

/-- A plugin instance as seen by the parser.  The source `Instance` type
lives outside the sampled files; modelled from the spec (§6): the registry
supplies each instance's trigger keywords (`GetTriggerKeywords`) and
declared command identifiers (`GetQueryCommands`). -/
structure Instance where
  triggerKeywords : List (List Char)
  queryCommands : List MetadataCommand
deriving DecidableEq

/-- `newQueryInputWithPlugins` from `query.go` (lines 165-224).
`lo.Find` is `List.find?`, `lo.Contains` / `lo.ContainsBy` are decidable
membership / `List.any`, and `strings.Contains(query, " ")` is decidable
membership of the space character.  The Go code's final `if found &&
mustContainSpace` is the two-discriminant match. -/
def newQueryInputWithPlugins (query : List Char) (pluginInstances : List Instance) : Query :=
  let terms := splitOnSpace query
  if terms.length = 0 then
    { «Type» := QueryTypeInput, RawQuery := query,
      TriggerKeyword := [], Command := [], Search := [] }
  else
    let rawQuery := query
    let possibleTriggerKeyword := terms.headD []
    let mustContainSpace := decide (' ' ∈ query)
    let found? := pluginInstances.find?
      (fun inst => decide (possibleTriggerKeyword ∈ inst.triggerKeywords))
    match found?, mustContainSpace with
    | some pluginInstance, true =>
      let triggerKeyword := possibleTriggerKeyword
      if terms.length = 1 then
        { «Type» := QueryTypeInput, RawQuery := query,
          TriggerKeyword := triggerKeyword, Command := [], Search := [] }
      else if terms.length = 2 then
        { «Type» := QueryTypeInput, RawQuery := query,
          TriggerKeyword := triggerKeyword, Command := [], Search := terms.getD 1 [] }
      else
        let possibleCommand := terms.getD 1 []
        if pluginInstance.queryCommands.any (fun item => decide (item.Command = possibleCommand)) then
          { «Type» := QueryTypeInput, RawQuery := query,
            TriggerKeyword := triggerKeyword, Command := possibleCommand,
            Search := joinSpace (terms.drop 2) }
        else
          { «Type» := QueryTypeInput, RawQuery := query,
            TriggerKeyword := triggerKeyword, Command := [],
            Search := joinSpace (terms.drop 1) }
    | _, _ =>
      { «Type» := QueryTypeInput, RawQuery := query,
        TriggerKeyword := [], Command := [], Search := rawQuery }

/-! ## Result types and the UI-facing conversion (`query.go` lines 68-150) -/

/-- `WoxImage` is a display payload opaque to this core; its definition lives
outside the sampled files.  Modelled from the spec (§3): an opaque value. -/
structure WoxImage where
  raw : String
deriving DecidableEq

/-- `WoxPreview` is a display payload opaque to this core; its definition
lives outside the sampled files.  Modelled from the spec (§3): an opaque
value. -/
structure WoxPreview where
  raw : String
deriving DecidableEq

/-- `QueryResultAction` from `query.go`.  The `Action` callback field (a Go
function value, dropped by `ToUI`) is not modelled. -/
structure QueryResultAction where
  Id : String
  Name : String
  Icon : WoxImage
  IsDefault : Bool
  PreventHideAfterAction : Bool
deriving DecidableEq

/-- `QueryResult` from `query.go`.  `Score` is Go `int64`, `RefreshInterval`
is Go `int`, both modelled as `Int` (no arithmetic is performed on them in
this core, so overflow cannot occur).  The `OnRefresh` callback field (a Go
function value, dropped by `ToUI`) is not modelled. -/
structure QueryResult where
  Id : String
  Title : String
  SubTitle : String
  Icon : WoxImage
  Preview : WoxPreview
  Score : Int
  ContextData : String
  Actions : List QueryResultAction
  RefreshInterval : Int
deriving DecidableEq

/-- `QueryResultActionUI` from `query.go`. -/
structure QueryResultActionUI where
  Id : String
  Name : String
  Icon : WoxImage
  IsDefault : Bool
  PreventHideAfterAction : Bool
deriving DecidableEq

/-- `QueryResultUI` from `query.go`.  `QueryId` is left at its zero value by
`ToUI`, exactly as in the Go struct literal. -/
structure QueryResultUI where
  QueryId : String
  Id : String
  Title : String
  SubTitle : String
  Icon : WoxImage
  Preview : WoxPreview
  Score : Int
  ContextData : String
  Actions : List QueryResultActionUI
  RefreshInterval : Int
deriving DecidableEq

/-- `QueryResult.ToUI` from `query.go` (lines 109-129): field-for-field copy
into the UI struct, mapping each action to its UI form (dropping the action
callback) and passing `RefreshInterval` through. -/
def QueryResult.ToUI (q : QueryResult) : QueryResultUI :=
  { QueryId := ""
    Id := q.Id
    Title := q.Title
    SubTitle := q.SubTitle
    Icon := q.Icon
    Preview := q.Preview
    Score := q.Score
    ContextData := q.ContextData
    Actions := q.Actions.map (fun action =>
      { Id := action.Id
        Name := action.Name
        Icon := action.Icon
        IsDefault := action.IsDefault
        PreventHideAfterAction := action.PreventHideAfterAction })
    RefreshInterval := q.RefreshInterval }

/-! ## The UI request handlers (`ui_impl.go`)

The websocket transport, logging and the plugin manager are external
collaborators.  A request carries its parameters as an association list
(the Go `map[string]string`).  The asynchronous output of
`plugin.GetPluginManager().Query` — a channel of result batches plus a done
channel — is modelled as a timed trace: each entry is the event the select
loop receives next, tagged with the time in milliseconds that elapsed
between the start of that select wait and the event's arrival.  Because
`time.After(time.Second * 10)` is evaluated afresh on every iteration of
the `for`/`select` loop, a new 10-second timer starts at each wait: the
loop receives the event if it arrives before the current timer fires and
times out otherwise (a tie at exactly 10 s is a select race in Go; the
model resolves it toward the timer — no claim depends on the tie). -/

/-- A websocket request as consumed by the handlers: correlation id and
string-to-string parameters. -/
structure WebsocketRequest where
  Id : String
  Params : List (String × String)

/-- One response sent back over the transport: `responseUISuccessWithData`
with a (possibly empty) data list, or `responseUIError` with a message. -/
inductive UIResponse (R : Type) where
  | success (data : List R)
  | error (msg : String)
deriving DecidableEq

/-- One event the dispatch loop's select can receive from the plugin layer:
a batch of results from `resultChan`, or the completion signal from
`doneChan`. -/
inductive PluginEvent (R : Type) where
  | batch (results : List R)
  | done
deriving DecidableEq

/-- How one dispatch terminated. -/
inductive QueryOutcome where
  | completed
  | timedOut
deriving DecidableEq

/-- The `time.Second * 10` timeout of `handleQuery`, in milliseconds. -/
def timeoutMs : Nat := 10000

/-- The `for`/`select` loop of `handleQuery` (`ui_impl.go` lines 80-97) on a
timed trace of plugin-layer events.  Each iteration starts a fresh
10-second timer (`time.After` re-evaluated per iteration): an event tagged
with an elapsed time of `timeoutMs` or more is never received — the timer
fires first.  An exhausted trace means the plugin layer produces nothing
further, so the timer fires.  Empty batches are skipped (`continue`);
non-empty batches are forwarded with `responseUISuccessWithData`; `done`
yields a final empty success response; a timeout yields the error response
built from the query text and the request id. -/
def queryLoop {R : Type} (query : String) (requestId : String) :
    List (Nat × PluginEvent R) → List (UIResponse R) × QueryOutcome
  | [] =>
    ([UIResponse.error ("query timeout, query: " ++ query ++ ", request id: " ++ requestId)],
     QueryOutcome.timedOut)
  | (delta, ev) :: rest =>
    if timeoutMs ≤ delta then
      ([UIResponse.error ("query timeout, query: " ++ query ++ ", request id: " ++ requestId)],
       QueryOutcome.timedOut)
    else
      match ev with
      | PluginEvent.batch results =>
        if results.length = 0 then
          queryLoop query requestId rest
        else
          let next := queryLoop query requestId rest
          (UIResponse.success results :: next.1, next.2)
      | PluginEvent.done => ([UIResponse.success []], QueryOutcome.completed)

/-- `handleQuery` from `ui_impl.go` (lines 65-99).  Returns the responses
sent for the request together with a flag recording whether the plugin
fan-out (`plugin.GetPluginManager().Query`) was reached.  A missing
`query` parameter answers with an error; an empty query string answers
with one empty success response; otherwise the dispatch loop runs on the
plugin layer's event trace. -/
def handleQuery {R : Type} (request : WebsocketRequest)
    (pluginEvents : List (Nat × PluginEvent R)) : List (UIResponse R) × Bool :=
  match request.Params.lookup "query" with
  | none => ([UIResponse.error "query parameter not found"], false)
  | some query =>
    if query = "" then
      ([UIResponse.success []], false)
    else
      ((queryLoop query request.Id pluginEvents).1, true)

/-- Response of `handleAction`: `responseUISuccess` or `responseUIError`. -/
inductive ActionResponse where
  | success
  | error (msg : String)
deriving DecidableEq

/-- `handleAction` from `ui_impl.go` (lines 101-118).  The plugin manager's
`GetAction` is modelled as lookup in an association list from result id to
action callback (callbacks themselves abstract, of type `A`).  Returns the
response, a flag recording whether the action lookup (`GetAction`) was
reached, and the callback that was executed, if any. -/
def handleAction {A : Type} (request : WebsocketRequest)
    (actions : List (String × A)) : ActionResponse × Bool × Option A :=
  match request.Params.lookup "id" with
  | none => (ActionResponse.error "id parameter not found", false, none)
  | some resultId =>
    match actions.lookup resultId with
    | none =>
      (ActionResponse.error ("action not found for result id: " ++ resultId), true, none)
    | some action => (ActionResponse.success, true, some action)

/-! ## Observation functions used to state the claims -/

/-- The data lists of the success responses in a response sequence, in
order (error responses carry no data). -/
def successData {R : Type} : List (UIResponse R) → List (List R)
  | [] => []
  | UIResponse.success data :: rest => data :: successData rest
  | UIResponse.error _ :: rest => successData rest

/-- The batches the dispatch loop actually receives from its trace before
terminating, in order of receipt: every batch event that arrives before the
current 10-second timer fires, empty or not, up to the first received
`done` or the first timeout. -/
def receivedBatches {R : Type} : List (Nat × PluginEvent R) → List (List R)
  | [] => []
  | (delta, ev) :: rest =>
    if timeoutMs ≤ delta then []
    else
      match ev with
      | PluginEvent.batch results => results :: receivedBatches rest
      | PluginEvent.done => []

/-- The absolute arrival time of the completion signal on a trace, measured
from dispatch start: the sum of the elapsed-time tags up to and including
the first `done` event, or `none` if the trace holds no `done`. -/
def doneTime {R : Type} : List (Nat × PluginEvent R) → Option Nat
  | [] => none
  | (delta, PluginEvent.done) :: _ => some delta
  | (delta, PluginEvent.batch _) :: rest => (doneTime rest).map (delta + ·)

/-- Whether a response sequence contains an error response. -/
def hasError {R : Type} : List (UIResponse R) → Bool
  | [] => false
  | UIResponse.success _ :: rest => hasError rest
  | UIResponse.error _ :: _ => true

/-! ## Helper lemmas -/

/-- Splitting never yields the empty list, exactly as Go's `strings.Split`:
the parser's `len(terms) == 0` branch is unreachable. -/
theorem splitOnSpace_ne_nil (s : List Char) : splitOnSpace s ≠ [] := by
  cases s with
  | nil => simp [splitOnSpace]
  | cons c rest =>
    simp only [splitOnSpace]
    split <;> simp

/-- A string without a space splits into the single term that is the whole
string. -/
theorem splitOnSpace_of_no_space (s : List Char) (h : ' ' ∉ s) : splitOnSpace s = [s] := by
  induction s with
  | nil => rfl
  | cons c rest ih =>
    have hc : ¬ c = ' ' := by
      intro hc
      exact h (hc ▸ List.mem_cons_self c rest)
    have hr : ' ' ∉ rest := fun hm => h (List.mem_cons_of_mem c hm)
    simp [splitOnSpace, ih hr, hc]

/-- A string that splits into at least two terms contains a space. -/
theorem space_mem_of_two_terms (s : List Char) (h : 2 ≤ (splitOnSpace s).length) :
    ' ' ∈ s := by
  by_contra hs
  rw [splitOnSpace_of_no_space s hs] at h
  simp at h

/-! ## Claim theorems -/

/-- Claim C3: a raw input containing no space character is never routed to
a plugin, whatever the registry holds: the parser yields an empty trigger
keyword, an empty command, and the full raw input as the search text, even
when the input exactly equals a registered trigger keyword. -/
theorem C3_no_space_not_routed (query : List Char) (ps : List Instance)
    (h : ' ' ∉ query) :
    (newQueryInputWithPlugins query ps).TriggerKeyword = [] ∧
    (newQueryInputWithPlugins query ps).Command = [] ∧
    (newQueryInputWithPlugins query ps).Search = query := by
  have hs := splitOnSpace_of_no_space query h
  have hdec : decide (' ' ∈ query) = false := by simpa using h
  unfold newQueryInputWithPlugins
  rw [hs]
  cases hf : ps.find? (fun inst => decide (([query] : List (List Char)).headD [] ∈ inst.triggerKeywords)) with
  | none => simp [hf, hdec]
  | some inst => simp [hf, hdec]

/-- Claim C3, witnessed at the input "wpm" against a registry in which
"wpm" is a registered trigger keyword. -/
theorem C3_no_space_not_routed_witness :
    (newQueryInputWithPlugins ['w','p','m']
        [{ triggerKeywords := [['w','p','m']],
           queryCommands := [{ Command := ['i','n','s','t','a','l','l'] }] }]).TriggerKeyword = [] ∧
    (newQueryInputWithPlugins ['w','p','m']
        [{ triggerKeywords := [['w','p','m']],
           queryCommands := [{ Command := ['i','n','s','t','a','l','l'] }] }]).Command = [] ∧
    (newQueryInputWithPlugins ['w','p','m']
        [{ triggerKeywords := [['w','p','m']],
           queryCommands := [{ Command := ['i','n','s','t','a','l','l'] }] }]).Search = ['w','p','m'] :=
  C3_no_space_not_routed ['w','p','m']
    [{ triggerKeywords := [['w','p','m']],
       queryCommands := [{ Command := ['i','n','s','t','a','l','l'] }] }]
    (by decide)

/-- Claim C4: a raw input splitting into exactly two terms whose first term
is a registered trigger keyword parses with an empty command and the second
term as the search text — the second term is never read as a command, even
if it matches a declared command identifier. -/
theorem C4_two_terms_search (query t0 t1 : List Char) (ps : List Instance)
    (hsplit : splitOnSpace query = [t0, t1])
    (hreg : ∃ inst ∈ ps, t0 ∈ inst.triggerKeywords) :
    (newQueryInputWithPlugins query ps).Command = [] ∧
    (newQueryInputWithPlugins query ps).Search = t1 := by
  have hspace : ' ' ∈ query := space_mem_of_two_terms query (by rw [hsplit]; simp)
  have hdec : decide (' ' ∈ query) = true := by simpa using hspace
  have hsome : (ps.find? (fun inst => decide (t0 ∈ inst.triggerKeywords))).isSome := by
    rw [List.find?_isSome]
    obtain ⟨inst, hmem, hkw⟩ := hreg
    exact ⟨inst, hmem, by simpa using hkw⟩
  obtain ⟨inst', hf⟩ := Option.isSome_iff_exists.mp hsome
  unfold newQueryInputWithPlugins
  rw [hsplit]
  constructor <;> simp [hf, hdec]

/-- Claim C4, witnessed at the input "wpm install": "install" is a declared
command of the plugin registered for "wpm", yet it is parsed as search. -/
theorem C4_two_terms_search_witness :
    (newQueryInputWithPlugins ['w','p','m',' ','i','n','s','t','a','l','l']
        [{ triggerKeywords := [['w','p','m']],
           queryCommands := [{ Command := ['i','n','s','t','a','l','l'] }] }]).Command = [] ∧
    (newQueryInputWithPlugins ['w','p','m',' ','i','n','s','t','a','l','l']
        [{ triggerKeywords := [['w','p','m']],
           queryCommands := [{ Command := ['i','n','s','t','a','l','l'] }] }]).Search =
      ['i','n','s','t','a','l','l'] :=
  C4_two_terms_search ['w','p','m',' ','i','n','s','t','a','l','l']
    ['w','p','m'] ['i','n','s','t','a','l','l']
    [{ triggerKeywords := [['w','p','m']],
       queryCommands := [{ Command := ['i','n','s','t','a','l','l'] }] }]
    (by decide) (by decide)

/-- Claim C5: a raw input splitting into three or more terms whose first
term is a registered trigger keyword parses, against the plugin the
registry lookup matches, as follows: if the second term is one of that
plugin's declared command identifiers it becomes the command and the
remaining terms joined with single spaces become the search text;
otherwise the command is empty and all terms after the first joined with
single spaces become the search text. -/
theorem C5_three_terms_command (query t0 t1 t2 : List Char) (rest : List (List Char))
    (ps : List Instance) (inst : Instance)
    (hsplit : splitOnSpace query = t0 :: t1 :: t2 :: rest)
    (hfind : ps.find? (fun i => decide (t0 ∈ i.triggerKeywords)) = some inst) :
    (inst.queryCommands.any (fun item => decide (item.Command = t1)) = true →
        (newQueryInputWithPlugins query ps).Command = t1 ∧
        (newQueryInputWithPlugins query ps).Search = joinSpace (t2 :: rest)) ∧
    (inst.queryCommands.any (fun item => decide (item.Command = t1)) = false →
        (newQueryInputWithPlugins query ps).Command = [] ∧
        (newQueryInputWithPlugins query ps).Search = joinSpace (t1 :: t2 :: rest)) := by
  have hspace : ' ' ∈ query := space_mem_of_two_terms query (by rw [hsplit]; simp)
  have hdec : decide (' ' ∈ query) = true := by simpa using hspace
  unfold newQueryInputWithPlugins
  rw [hsplit]
  constructor <;> intro hcmd <;> constructor <;> simp [hfind, hdec, hcmd]

/-- Claim C5, witnessed at the input "wpm install foo": "install" is a
declared command of the plugin registered for "wpm", so it becomes the
command and "foo" the search text. -/
theorem C5_three_terms_command_witness :
    (newQueryInputWithPlugins
        ['w','p','m',' ','i','n','s','t','a','l','l',' ','f','o','o']
        [{ triggerKeywords := [['w','p','m']],
           queryCommands := [{ Command := ['i','n','s','t','a','l','l'] }] }]).Command =
      ['i','n','s','t','a','l','l'] ∧
    (newQueryInputWithPlugins
        ['w','p','m',' ','i','n','s','t','a','l','l',' ','f','o','o']
        [{ triggerKeywords := [['w','p','m']],
           queryCommands := [{ Command := ['i','n','s','t','a','l','l'] }] }]).Search =
      joinSpace [['f','o','o']] :=
  (C5_three_terms_command
    ['w','p','m',' ','i','n','s','t','a','l','l',' ','f','o','o']
    ['w','p','m'] ['i','n','s','t','a','l','l'] ['f','o','o'] []
    [{ triggerKeywords := [['w','p','m']],
       queryCommands := [{ Command := ['i','n','s','t','a','l','l'] }] }]
    { triggerKeywords := [['w','p','m']],
      queryCommands := [{ Command := ['i','n','s','t','a','l','l'] }] }
    (by decide) (by decide)).1 (by decide)

/-- Claim C6: the empty raw input parses, for every registry snapshot, to
an Input-kind query whose raw text, trigger keyword, command and search
fields are all empty; no error is possible. -/
theorem C6_empty_input (ps : List Instance) :
    newQueryInputWithPlugins [] ps =
      { «Type» := QueryTypeInput, RawQuery := [],
        TriggerKeyword := [], Command := [], Search := [] } := by
  unfold newQueryInputWithPlugins
  cases hf : ps.find? (fun inst => decide ((splitOnSpace []).headD [] ∈ inst.triggerKeywords)) with
  | none => simp [splitOnSpace] at hf ⊢
  | some inst => simp [splitOnSpace] at hf ⊢

/-- Claim C7: a query request whose query string is present but empty is
answered with exactly one empty success response and the handler
terminates; the plugin fan-out is never reached. -/
theorem C7_empty_query_single_response {R : Type} (request : WebsocketRequest)
    (pluginEvents : List (Nat × PluginEvent R))
    (h : request.Params.lookup "query" = some "") :
    handleQuery request pluginEvents = ([UIResponse.success []], false) := by
  simp [handleQuery, h]

/-- Claim C7, witnessed at a request carrying an empty query string while
the plugin layer would have produced a batch. -/
theorem C7_empty_query_single_response_witness :
    handleQuery { Id := "r1", Params := [("query", "")] }
      [(0, PluginEvent.batch [5])] = ([UIResponse.success ([] : List Nat)], false) :=
  @C7_empty_query_single_response Nat { Id := "r1", Params := [("query", "")] }
    [(0, PluginEvent.batch [5])] (by decide)

/-- Claim C8: over any plugin-event trace, the data carried by the success
responses of the dispatch loop is exactly the non-empty batches received,
in order of receipt, followed by the single empty end-of-stream success
response when the loop completes normally; empty batches are never
forwarded, and a timed-out loop forwards no further data. -/
theorem C8_batches_forwarded {R : Type} (q i : String)
    (trace : List (Nat × PluginEvent R)) :
    successData (queryLoop q i trace).1 =
      (receivedBatches trace).filter (fun b => !b.isEmpty) ++
      (match (queryLoop q i trace).2 with
       | QueryOutcome.completed => [([] : List R)]
       | QueryOutcome.timedOut => []) := by
  induction trace with
  | nil => simp [queryLoop, successData, receivedBatches]
  | cons head rest ih =>
    obtain ⟨delta, ev⟩ := head
    by_cases hd : timeoutMs ≤ delta
    · simp [queryLoop, successData, receivedBatches, hd]
    · cases ev with
      | done => simp [queryLoop, successData, receivedBatches, hd]
      | batch results =>
        by_cases hr : results.length = 0
        · have hnil : results = [] := List.length_eq_zero.mp hr
          subst hnil
          simpa [queryLoop, successData, receivedBatches, hd] using ih
        · have hne : ¬ results = [] := by
            intro hcon
            exact hr (by simp [hcon])
          simp [queryLoop, successData, receivedBatches, hd, hr, hne, ih]

/-- Claim C9: a query request with no "query" parameter and an action
request with no "id" parameter are each answered immediately with an
error response; the plugin fan-out is not reached and the action lookup is
not reached (and no action runs). -/
theorem C9_missing_parameter {R A : Type} (reqQ reqA : WebsocketRequest)
    (pluginEvents : List (Nat × PluginEvent R)) (actions : List (String × A))
    (hq : reqQ.Params.lookup "query" = none)
    (ha : reqA.Params.lookup "id" = none) :
    handleQuery reqQ pluginEvents = ([UIResponse.error "query parameter not found"], false) ∧
    handleAction reqA actions = (ActionResponse.error "id parameter not found", false, none) := by
  constructor
  · simp [handleQuery, hq]
  · simp [handleAction, ha]

/-- Claim C9, witnessed at requests whose parameter maps lack the required
keys while the plugin layer and the action store are non-trivial. -/
theorem C9_missing_parameter_witness :
    handleQuery { Id := "r1", Params := [("other", "x")] }
        [(0, PluginEvent.batch [5])] =
      (([UIResponse.error "query parameter not found"] : List (UIResponse Nat)), false) ∧
    handleAction { Id := "r2", Params := [] } [("res1", 7)] =
      (ActionResponse.error "id parameter not found", false, (none : Option Nat)) :=
  @C9_missing_parameter Nat Nat { Id := "r1", Params := [("other", "x")] }
    { Id := "r2", Params := [] } [(0, PluginEvent.batch [5])] [("res1", 7)]
    (by decide) (by decide)

/-- Claim C1 fails on the code: a trace whose completion signal arrives
18000 ms after dispatch start — well past the 10-second mark — while each
individual event arrives 6000 ms after the previous one.  The dispatch
loop completes normally and reports no timeout error, because
`time.After(time.Second * 10)` is re-evaluated on every loop iteration and
the timer therefore restarts on each received batch. -/
theorem C1_hard_deadline_counterexample :
    doneTime [(6000, PluginEvent.batch [1]), (6000, PluginEvent.batch [2]),
      (6000, (PluginEvent.done : PluginEvent Nat))] = some 18000 ∧
    timeoutMs < 18000 ∧
    (queryLoop "wpm" "r1" [(6000, PluginEvent.batch [1]), (6000, PluginEvent.batch [2]),
      (6000, (PluginEvent.done : PluginEvent Nat))]).2 = QueryOutcome.completed ∧
    hasError (queryLoop "wpm" "r1" [(6000, PluginEvent.batch [1]), (6000, PluginEvent.batch [2]),
      (6000, (PluginEvent.done : PluginEvent Nat))]).1 = false := by
  decide

/-- Claim C1 as amended: the 10-second timeout is an idle timeout, not a
hard wall-clock deadline.  A fresh timer starts at every select wait, so
(first part) whenever every event arrives within 10 seconds of the
previous one and completion is present, the loop terminates normally with
no error, regardless of total elapsed time; and (second part) whenever the
next event takes 10 seconds or more to arrive after the events before it
were received in time, the loop terminates with a timeout error. -/
theorem C1_idle_timeout {R : Type} :
    (∀ (q i : String) (trace : List (Nat × PluginEvent R)),
        (∀ p ∈ trace, p.1 < timeoutMs) →
        PluginEvent.done ∈ trace.map Prod.snd →
        (queryLoop q i trace).2 = QueryOutcome.completed ∧
        hasError (queryLoop q i trace).1 = false) ∧
    (∀ (q i : String) (pre : List (Nat × PluginEvent R)) (d : Nat) (ev : PluginEvent R)
        (rest : List (Nat × PluginEvent R)),
        (∀ p ∈ pre, p.1 < timeoutMs ∧ p.2 ≠ PluginEvent.done) →
        timeoutMs ≤ d →
        (queryLoop q i (pre ++ (d, ev) :: rest)).2 = QueryOutcome.timedOut) := by
  constructor
  · intro q i trace hdeltas hdone
    induction trace with
    | nil => simp at hdone
    | cons head rest ih =>
      obtain ⟨delta, ev⟩ := head
      have hd : ¬ timeoutMs ≤ delta := by
        have := hdeltas (delta, ev) (List.mem_cons_self _ _)
        omega
      cases ev with
      | done => simp [queryLoop, hasError, hd]
      | batch results =>
        have hdone' : PluginEvent.done ∈ rest.map Prod.snd := by
          simpa using hdone
        have hdeltas' : ∀ p ∈ rest, p.1 < timeoutMs :=
          fun p hp => hdeltas p (List.mem_cons_of_mem _ hp)
        have ihr := ih hdeltas' hdone'
        by_cases hr : results.length = 0
        · simpa [queryLoop, hd, hr] using ihr
        · simpa [queryLoop, hasError, hd, hr] using ihr
  · intro q i pre d ev rest hpre hle
    induction pre with
    | nil => simp [queryLoop, hle]
    | cons head pre' ih =>
      obtain ⟨d0, ev0⟩ := head
      obtain ⟨hd0, hev0⟩ := hpre (d0, ev0) (List.mem_cons_self _ _)
      have hd0' : ¬ timeoutMs ≤ d0 := by omega
      have hpre' : ∀ p ∈ pre', p.1 < timeoutMs ∧ p.2 ≠ PluginEvent.done :=
        fun p hp => hpre p (List.mem_cons_of_mem _ hp)
      have ihr := ih hpre'
      cases ev0 with
      | done => exact absurd rfl hev0
      | batch results =>
        by_cases hr : results.length = 0
        · simpa [queryLoop, hd0', hr] using ihr
        · simpa [queryLoop, hd0', hr] using ihr

/-- Claim C1 as amended, witnessed: a stream whose events each arrive
9000 ms apart (total 18000 ms) completes without error, and a stream whose
completion takes 10000 ms to arrive after a timely batch times out. -/
theorem C1_idle_timeout_witness :
    ((queryLoop "wpm" "r2" [(9000, PluginEvent.batch [5]),
        (9000, (PluginEvent.done : PluginEvent Nat))]).2 = QueryOutcome.completed ∧
      hasError (queryLoop "wpm" "r2" [(9000, PluginEvent.batch [5]),
        (9000, (PluginEvent.done : PluginEvent Nat))]).1 = false) ∧
    (queryLoop "wpm" "r2"
        ([(500, PluginEvent.batch [7])] ++ (10000, (PluginEvent.done : PluginEvent Nat)) :: [])).2 =
      QueryOutcome.timedOut :=
  ⟨(@C1_idle_timeout Nat).1 "wpm" "r2"
      [(9000, PluginEvent.batch [5]), (9000, PluginEvent.done)] (by decide) (by decide),
   (@C1_idle_timeout Nat).2 "wpm" "r2"
      [(500, PluginEvent.batch [7])] 10000 PluginEvent.done [] (by decide) (by decide)⟩

/-- Claim C2 fails on the code: the UI-facing conversion of a result whose
refresh interval is 123 yields 123 unchanged — not a multiple of 100 and
in particular not the nearest multiple 100. -/
theorem C2_normalization_counterexample :
    (QueryResult.ToUI
      { Id := "r1", Title := "t", SubTitle := "s", Icon := { raw := "" },
        Preview := { raw := "" }, Score := 0, ContextData := "",
        Actions := [], RefreshInterval := 123 }).RefreshInterval = 123 ∧
    ¬ ((123 : Int) % 100 = 0) ∧ ¬ ((123 : Int) = 100) :=
  ⟨rfl, by decide, by decide⟩

/-- Claim C2 as amended: the UI-facing conversion passes the refresh
interval of every result through unchanged; no normalization to a multiple
of 100 happens anywhere in this core before the result is handed to the
UI. -/
theorem C2_refresh_interval_passthrough (q : QueryResult) :
    (QueryResult.ToUI q).RefreshInterval = q.RefreshInterval := rfl

/-- Claim C10: the parser is total: for every raw input and registry it
returns a query of Input type carrying the raw input verbatim, and the
split of the input never produces zero terms, so the `len(terms) == 0`
branch is unreachable and the access to the first term is in bounds. -/
theorem C10_parser_total (query : List Char) (ps : List Instance) :
    (newQueryInputWithPlugins query ps).«Type» = QueryTypeInput ∧
    (newQueryInputWithPlugins query ps).RawQuery = query ∧
    splitOnSpace query ≠ [] := by
  refine ⟨?_, ?_, splitOnSpace_ne_nil query⟩ <;>
  · unfold newQueryInputWithPlugins
    dsimp only
    split
    · rfl
    · split <;> try rfl
      split
      · rfl
      · split
        · rfl
        · split <;> rfl

end Wox
